import Mathlib

/-!
Verification of the session-lifecycle and notebook-bridge subsystem of the
orchest webserver client.

Part 1 embeds `src/services/orchest-webserver/client/src/contexts/SessionsContext.tsx`:
the session registry, the toggle protocol and the bulk stop operation.

Part 2 embeds `src/services/orchest-webserver/client/src/jupyter/Jupyter.tsx`:
the notebook bridge (iframe wrapper) with its readiness introspection,
deferred reload pass and kernel-change confirmation flow.

Modelling conventions:
* JavaScript objects whose keys may be absent are structures with `Option`
  fields (`none` = key absent / value `undefined`).
* Network requests, alert dialogs, navigations, prompts etc. are returned as
  explicit event lists; asynchronous completions (`.then` / `.catch`
  callbacks) are separate functions taking the outcome as an argument.
* `dispatch` on the React reducer is applied synchronously to the state, in
  program order, matching the reducer-level semantics of functional updates.
* In-place mutation performed by `convertKeyToCamelCase(foundSession, keys)`
  on the session object stored in the registry is modelled faithfully: the
  first matching registry entry is replaced by its converted version.
-/

namespace Orchest

/-- One session object. The registry stores sessions that may carry their
identity under the snake_case convention (`project_uuid`, `pipeline_uuid`),
the camelCase convention (`projectUuid`, `pipelineUuid`), or both.
`none` models an absent / `undefined` field. Mirrors the `Session` type and
the `IOrchestSession` payloads of `SessionsContext.tsx`. -/
structure Session where
  project_uuid : Option String := none
  pipeline_uuid : Option String := none
  projectUuid : Option String := none
  pipelineUuid : Option String := none
  status : Option String := none
  deriving Repr, DecidableEq

/-- JavaScript `a || b` on possibly-absent string fields: `undefined` and the
empty string are falsy. -/
def jsOr (a b : Option String) : Option String :=
  match a with
  | some s => if s = "" then b else some s
  | none => b

/-- `getSessionValue` from `SessionsContext.tsx`: normalizes a session to its
`{projectUuid, pipelineUuid}` identity pair, preferring the camelCase field
and falling back to the snake_case one (JS `||`). -/
def getSessionValue (s : Session) : Option String × Option String :=
  (jsOr s.projectUuid s.project_uuid, jsOr s.pipelineUuid s.pipeline_uuid)

/-- `isSession` from `SessionsContext.tsx`: two sessions are the same when
their normalized identity pairs agree on both keys. -/
def isSession (a b : Session) : Bool :=
  decide (getSessionValue a = getSessionValue b)

/-- `isStoppable` from `SessionsContext.tsx`:
`["RUNNING", "LAUNCHING"].includes(status)`. -/
def isStoppable (status : Option String) : Bool :=
  status == some "RUNNING" || status == some "LAUNCHING"

/-- `isWorking` check inside `toggleSession`:
`["LAUNCHING", "STOPPING"].includes(session?.status)`. -/
def isWorking (status : Option String) : Bool :=
  status == some "LAUNCHING" || status == some "STOPPING"

/-- `convertKeyToCamelCase(data, ["project_uuid", "pipeline_uuid"])` from
`SessionsContext.tsx`: unconditionally assigns
`data.projectUuid = data.project_uuid` and
`data.pipelineUuid = data.pipeline_uuid` (mutating `data` in place; the
snake_case value may be `undefined`, in which case the camelCase field is
overwritten with `undefined`). -/
def convertKeyToCamelCase (s : Session) : Session :=
  { s with projectUuid := s.project_uuid, pipelineUuid := s.pipeline_uuid }

/-- JS template-literal rendering of a possibly-undefined string
(`undefined` prints as the string "undefined"). -/
def jsStr : Option String → String
  | none => "undefined"
  | some s => s

/-- `ENDPOINT` constant of `SessionsContext.tsx`. -/
def ENDPOINT : String := "/catch/api-proxy/api/sessions/"

/-- An outgoing network request issued by the sessions context:
`delete url` models `fetcher(url, {method: "DELETE"})` (`stopSession`) and
`post url pipeline_uuid project_uuid` models the launch
`fetcher(ENDPOINT, {method: "POST", body: {pipeline_uuid, project_uuid}})`. -/
inductive Request where
  | delete (url : String)
  | post (url : String) (pipeline_uuid project_uuid : Option String)
  deriving Repr, DecidableEq

/-- `stopSession({pipelineUuid, projectUuid})` from `SessionsContext.tsx`:
a DELETE request to `${ENDPOINT}${projectUuid}/${pipelineUuid}`. -/
def stopSessionRequest (s : Session) : Request :=
  Request.delete (ENDPOINT ++ jsStr s.projectUuid ++ "/" ++ jsStr s.pipelineUuid)

/-- `SessionsContextState` from `SessionsContext.tsx`. -/
structure SessionsContextState where
  sessions : List Session
  sessionsIsLoading : Bool
  sessionsKillAllInProgress : Bool
  deriving Repr, DecidableEq

/-- `initialState` from `SessionsContext.tsx`. -/
def initialState : SessionsContextState :=
  { sessions := [], sessionsIsLoading := true, sessionsKillAllInProgress := false }

/-- JS object spread `{...old, ...new}` on sessions: fields present on `new`
override those of `old`. -/
def optOr (a b : Option String) : Option String :=
  match a with
  | some v => some v
  | none => b

/-- `{...sessionData, ...newSessionData}` merge used by `setSession`. -/
def mergeSession (old new : Session) : Session :=
  { project_uuid := optOr new.project_uuid old.project_uuid
    pipeline_uuid := optOr new.pipeline_uuid old.pipeline_uuid
    projectUuid := optOr new.projectUuid old.projectUuid
    pipelineUuid := optOr new.pipelineUuid old.pipelineUuid
    status := optOr new.status old.status }

/-- `setSession(newSessionData)` from `SessionsContext.tsx`: merges the
partial data into every registry entry with a matching identity; when no
entry matches, appends the data as a temporary session with status
`"LAUNCHING"` (the explicit `status: "LAUNCHING"` in the inserted object
overrides any status carried by the data). -/
def setSession (nd : Session) (st : SessionsContextState) : SessionsContextState :=
  let found := st.sessions.any (fun s => isSession nd s)
  let newSessions := st.sessions.map (fun s => if isSession nd s then mergeSession s nd else s)
  { st with
    sessions :=
      if found then newSessions
      else newSessions ++ [{ nd with status := some "LAUNCHING" }] }

/-- Replace the first list entry satisfying `p` by its image under `f`
(models the in-place mutation of the object returned by
`state.sessions.find(...)`). -/
def mutateFirst (p : Session → Bool) (f : Session → Session) : List Session → List Session
  | [] => []
  | s :: rest => if p s then f s :: rest else s :: mutateFirst p f rest

/-- The payload of `toggleSession` (`IOrchestSessionUuid`): a camelCase
identity pair. -/
def mkPayload (p q : String) : Session :=
  { projectUuid := some p, pipelineUuid := some q }

/-- The synchronous phase of `toggleSession(payload)` from
`SessionsContext.tsx`, up to the first `await`: looks up the session,
applies `convertKeyToCamelCase` (mutating the stored entry in place), then
either no-ops (status LAUNCHING/STOPPING), optimistically marks STOPPING
and issues the stop request (status RUNNING), or optimistically inserts a
LAUNCHING entry and issues the launch request. Returns the new registry
state and the requests issued. -/
def toggleStart (st : SessionsContextState) (payload : Session) :
    SessionsContextState × List Request :=
  match st.sessions.find? (fun s => isSession s payload) with
  | none =>
      let st1 := setSession { payload with status := some "LAUNCHING" } st
      (st1, [Request.post ENDPOINT payload.pipelineUuid payload.projectUuid])
  | some found =>
      let conv := convertKeyToCamelCase found
      let stM := { st with
        sessions := mutateFirst (fun s => isSession s payload) (fun _ => conv) st.sessions }
      if isWorking conv.status then (stM, [])
      else if conv.status == some "RUNNING" then
        let st2 := setSession { conv with status := some "STOPPING" } stM
        (st2, [stopSessionRequest conv])
      else
        let st1 := setSession { payload with status := some "LAUNCHING" } stM
        (st1, [Request.post ENDPOINT payload.pipelineUuid payload.projectUuid])

/-- Completion of `await stopSession(session)` inside `toggleSession`: on
success nothing happens; on failure `setAlert("Error", "Failed to stop
session.")` is called and the registry is left untouched. Returns the state
together with the alerts raised (title, message). -/
def stopSettle (st : SessionsContextState) (ok : Bool) :
    SessionsContextState × List (String × String) :=
  if ok then (st, [])
  else (st, [("Error", "Failed to stop session.")])

/-- Completion of the launch `fetcher` inside `toggleSession`: on success
the server's session details are merged via `setSession`; on failure an
alert is raised and the registry is left untouched. -/
def launchSettle (st : SessionsContextState) (result : Except String Session) :
    SessionsContextState × List (String × String) :=
  match result with
  | Except.ok details => (setSession details st, [])
  | Except.error msg => (st, [("Error", "Error while starting the session: " ++ msg)])

/-- The synchronous phase of `deleteAllSessions()` from
`SessionsContext.tsx`: sets the killing-all flag, marks every stoppable
session STOPPING (collecting its camelCase identity) and issues one stop
request per stoppable session. -/
def deleteAllSessionsStart (st : SessionsContextState) :
    SessionsContextState × List Request :=
  let marked := st.sessions.map (fun s =>
    if isStoppable s.status then { s with status := some "STOPPING" } else s)
  let toStop := st.sessions.filter (fun s => isStoppable s.status)
  ({ st with sessionsKillAllInProgress := true, sessions := marked },
    toStop.map (fun s =>
      stopSessionRequest { projectUuid := s.projectUuid, pipelineUuid := s.pipelineUuid }))

/-- Completion of the `Promise.all` inside `deleteAllSessions()`:
`Promise.all` fulfils only when every stop request succeeded, in which case
the registry is cleared and the killing-all flag reset; if any request
failed, the `.catch` merely logs and the state is left untouched. -/
def deleteAllSessionsSettle (st : SessionsContextState) (allOk : Bool) :
    SessionsContextState :=
  if allOk then { st with sessions := [], sessionsKillAllInProgress := false }
  else st

/-- `getSession(session)` from `SessionsContext.tsx`: first registry entry
whose identity matches the query. -/
def getSession (query : Session) (st : SessionsContextState) : Option Session :=
  st.sessions.find? (fun s => isSession query s)

/-- A registry list contains two distinct entries that `isSession` judges
identical. -/
def hasDuplicateIdentity : List Session → Bool
  | [] => false
  | s :: rest => rest.any (fun t => isSession s t) || hasDuplicateIdentity rest

end Orchest

namespace Jupyter

/-- One widget of the embedded JupyterLab shell, as far as `Jupyter.tsx`
introspects it: `nodePresent` models `widget.node` being defined (access to
`widget.node.offsetParent` or `classList` throws otherwise),
`isNotebookPanel` models `node.classList.contains("jp-NotebookPanel")`,
`offsetParentPresent` models `node.offsetParent !== null`, `dirty` models
`widget.model.dirty`, and `ctxId` models the result of
`docManager.contextForWidget(widget)` (`none` = `undefined`, `some c` = a
context identified by `c` on which `revert()` can be called). -/
structure Widget where
  nodePresent : Bool := true
  isNotebookPanel : Bool := false
  offsetParentPresent : Bool := false
  dirty : Bool := false
  ctxId : Option String := none
  deriving Repr, DecidableEq

/-- A notebook widget currently open in the lab
(`docManager.findWidget(notebook)`); `kernelName` models the chain
`context.sessionContext.session.kernel.name`, `none` when any link of the
chain is missing. -/
structure OpenNotebook where
  path : String
  kernelName : Option String := none
  deriving Repr, DecidableEq

/-- A persisted Jupyter session
(`docManager.services.sessions.findByPath(notebook)`). -/
structure PersistedSession where
  path : String
  id : String
  kernelName : Option String := none
  deriving Repr, DecidableEq

/-- The internal state of the foreign JupyterLab application
(`iframe.contentWindow._orchest_app` / `_orchest_docmanager`), as far as
`Jupyter.tsx` reads it. -/
structure JApp where
  shellWidgets : List Widget := []
  mainWidgets : List Widget := []
  shellNodeClientWidth : Int := 0
  mainContentPanel : Option Int := none
  openNotebooks : List OpenNotebook := []
  persistedSessions : List PersistedSession := []
  deriving Repr, DecidableEq

/-- The foreign surface: `app = none` models
`iframe.contentWindow._orchest_app` being `undefined` (any dereference of
its members throws). -/
structure Surface where
  app : Option JApp := none
  deriving Repr, DecidableEq

/-- Observable effects of the notebook bridge: navigations
(`location.replace`), reloads (`location.reload`), un-hiding the holder,
confirmation prompts (`setConfirm`), kernel changes
(`sessionContext.changeKernel`), session shutdowns
(`services.sessions.shutdown`) and content reverts (`ctx.revert()`). -/
inductive JEvent where
  | navigate (url : String)
  | reload
  | unhide
  | prompt (title message : String)
  | changeKernel (kernel : String)
  | shutdownSession (id : String)
  | revert (ctxId : String)
  deriving Repr, DecidableEq

/-- The mutable fields of the `Jupyter` class: `baseAddress`, the iframe's
current location (`href`), `reloadOnShow`, `iframeHasLoaded`, the holder's
hidden css class, whether `showCheckInterval` is armed, and the
`pendingKernelChanges` object (an association list; the most recent entry
for a key wins, modelling JS property assignment). -/
structure JupyterState where
  baseAddress : String := ""
  href : String := "about:blank"
  reloadOnShow : Bool := false
  iframeHasLoaded : Bool := false
  hidden : Bool := true
  showCheckActive : Bool := false
  pendingKernelChanges : List (String × Bool) := []
  deriving Repr, DecidableEq

/-- `p` occurs at the head of `l`. -/
def charsStartWith : List Char → List Char → Bool
  | [], _ => true
  | _ :: _, [] => false
  | a :: p, b :: l => a == b && charsStartWith p l

/-- `needle` occurs somewhere in `hay`. -/
def charsInclude (needle : List Char) : List Char → Bool
  | [] => charsStartWith needle []
  | c :: rest => charsStartWith needle (c :: rest) || charsInclude needle rest

/-- JS `hay.indexOf(needle) !== -1`. -/
def strContains (hay needle : String) : Bool :=
  charsInclude needle.data hay.data

/-- `_setJupyterAddress(url)`: resets the readiness flag and navigates the
iframe. -/
def setJupyterAddress (st : JupyterState) (url : String) : JupyterState × List JEvent :=
  ({ st with iframeHasLoaded := false, href := url }, [JEvent.navigate url])

/-- `unload()`: navigate the iframe to `about:blank`. -/
def unload (st : JupyterState) : JupyterState × List JEvent :=
  setJupyterAddress st "about:blank"

/-- `updateJupyterInstance(baseAddress)`: when the address changed, unload
the iframe before recording the new address. -/
def updateJupyterInstance (st : JupyterState) (baseAddress : String) :
    JupyterState × List JEvent :=
  if st.baseAddress != baseAddress then
    let r := unload st
    ({ r.1 with baseAddress := baseAddress }, r.2)
  else
    ({ st with baseAddress := baseAddress }, [])

/-- The `try`-body of `isJupyterLoaded()`: walk
`_orchest_app.shell.widgets()` looking for a widget whose
`node.offsetParent` is not `null`; dereferencing a missing `node` throws. -/
def widgetOnScreenExc : List Widget → Except Unit Bool
  | [] => Except.ok false
  | w :: ws =>
      if !w.nodePresent then Except.error ()
      else if w.offsetParentPresent then Except.ok true
      else widgetOnScreenExc ws

/-- The `try`-body of `isJupyterLoaded()` on the whole surface: accessing
`.shell` on an `undefined` `_orchest_app` throws. -/
def isJupyterLoadedExc (s : Surface) : Except Unit Bool :=
  match s.app with
  | none => Except.error ()
  | some app => widgetOnScreenExc app.shellWidgets

/-- `catch { return false }`: any raised error becomes `false`. -/
def catchFalse : Except Unit Bool → Bool
  | Except.ok b => b
  | Except.error _ => false

/-- `isJupyterLoaded()` from `Jupyter.tsx`. -/
def isJupyterLoaded (s : Surface) : Bool :=
  catchFalse (isJupyterLoadedExc s)

/-- The `try`-body of `isJupyterShellRenderedCorrectly()`:
`querySelector("#jp-main-content-panel")` returns `null` when the panel is
absent, and dereferencing `.clientWidth` on it throws; otherwise the panel
width must equal the shell width or exceed 500. -/
def isJupyterShellRenderedCorrectlyExc (s : Surface) : Except Unit Bool :=
  match s.app with
  | none => Except.error ()
  | some app =>
      match app.mainContentPanel with
      | none => Except.error ()
      | some w => Except.ok (w == app.shellNodeClientWidth || decide (w > 500))

/-- `isJupyterShellRenderedCorrectly()` from `Jupyter.tsx`. -/
def isJupyterShellRenderedCorrectly (s : Surface) : Bool :=
  catchFalse (isJupyterShellRenderedCorrectlyExc s)

/-- `fixJupyterRenderingGlitch()`: when the lab reports loaded but the shell
is mis-rendered, force a reload and reset the readiness flag. -/
def fixJupyterRenderingGlitch (st : JupyterState) (s : Surface) :
    JupyterState × List JEvent :=
  if isJupyterLoaded s && !isJupyterShellRenderedCorrectly s then
    ({ st with iframeHasLoaded := false }, [JEvent.reload])
  else (st, [])

/-- `reloadFilesFromDisk()` from `Jupyter.tsx`: the public entry point only
sets `reloadOnShow = true`; it touches nothing else and performs no revert
(the surface argument is ignored, mirroring the source body
`this.reloadOnShow = true;`). -/
def reloadFilesFromDisk (st : JupyterState) (_s : Surface) :
    JupyterState × List JEvent :=
  ({ st with reloadOnShow := true }, [])

/-- The revert events produced by one pass of `_reloadFilesFromDisk()` over
`lab.shell.widgets("main")`: every widget with a defined node carrying the
`jp-NotebookPanel` class and a clean model is reverted, provided
`docManager.contextForWidget` resolves a context for it. -/
def revertEvents (app : JApp) : List JEvent :=
  (app.mainWidgets.filter (fun w => w.nodePresent && w.isNotebookPanel && !w.dirty)).filterMap
    (fun w => w.ctxId.map JEvent.revert)

/-- `_reloadFilesFromDisk()` from `Jupyter.tsx`: when `_orchest_app` is
present, clear `reloadOnShow` and revert every clean notebook panel whose
context resolves; otherwise do nothing. -/
def reloadFilesFromDiskNow (st : JupyterState) (s : Surface) :
    JupyterState × List JEvent :=
  match s.app with
  | none => (st, [])
  | some app => ({ st with reloadOnShow := false }, revertEvents app)

/-- `show()` from `Jupyter.tsx` (`show` is a Lean keyword, hence the
name): run a deferred reload if one is pending, navigate to
`<baseAddress>/lab` when the iframe's location does not contain the base
address, apply the rendering-glitch correction, and (re-)arm the readiness
poll. -/
def showJupyter (st : JupyterState) (s : Surface) : JupyterState × List JEvent :=
  let r1 :=
    if st.reloadOnShow then reloadFilesFromDiskNow { st with reloadOnShow := false } s
    else (st, ([] : List JEvent))
  let r2 :=
    if !(strContains r1.1.href r1.1.baseAddress) then
      setJupyterAddress r1.1 (r1.1.baseAddress ++ "/lab")
    else (r1.1, [])
  let r3 := fixJupyterRenderingGlitch r2.1 s
  ({ r3.1 with showCheckActive := true }, r1.2 ++ r2.2 ++ r3.2)

/-- `hide()` from `Jupyter.tsx`. -/
def hide (st : JupyterState) : JupyterState :=
  { st with hidden := true, showCheckActive := false }

/-- The key `${notebook}-${kernel}` of the `pendingKernelChanges` object. -/
def pendingKey (notebook kernel : String) : String :=
  notebook ++ "-" ++ kernel

/-- `isKernelChangePending(notebook, kernel)` from `Jupyter.tsx`:
`pendingKernelChanges[key] === true`. -/
def isKernelChangePending (st : JupyterState) (notebook kernel : String) : Bool :=
  st.pendingKernelChanges.lookup (pendingKey notebook kernel) == some true

/-- `setKernelChangePending(notebook, kernel, value)` from `Jupyter.tsx`. -/
def setKernelChangePending (st : JupyterState) (notebook kernel : String) (value : Bool) :
    JupyterState :=
  { st with pendingKernelChanges :=
      (pendingKey notebook kernel, value) :: st.pendingKernelChanges }

/-- The confirmation message of `setNotebookKernel`. -/
def warningMessage : String :=
  "Do you want to change the active kernel of the opened " ++
  "Notebook? \n\nYou will lose the current kernel's state if no other Notebook " ++
  "is attached to it."

/-- The synchronous phase of `setNotebookKernel(notebook, kernel)` from
`Jupyter.tsx` (the `findByPath` promise is modelled as already resolved):
when the notebook is open (resp. has a persisted session) and is bound to a
different kernel, and no change for this `(notebook, kernel)` pair is
pending, mark the pair pending and issue the confirmation prompt; in every
other case nothing happens. -/
def setNotebookKernel (st : JupyterState) (s : Surface) (notebook kernel : String) :
    JupyterState × List JEvent :=
  match s.app with
  | none => (st, [])
  | some app =>
      match app.openNotebooks.find? (fun nb => nb.path == notebook) with
      | some nb =>
          match nb.kernelName with
          | some kname =>
              if kname != kernel then
                if !isKernelChangePending st notebook kernel then
                  (setKernelChangePending st notebook kernel true,
                    [JEvent.prompt "Warning" warningMessage])
                else (st, [])
              else (st, [])
          | none => (st, [])
      | none =>
          match app.persistedSessions.find? (fun ps => ps.path == notebook) with
          | some ps =>
              match ps.kernelName with
              | some kname =>
                  if kname != kernel then
                    if !isKernelChangePending st notebook kernel then
                      (setKernelChangePending st notebook kernel true,
                        [JEvent.prompt "Warning" warningMessage])
                    else (st, [])
                  else (st, [])
              | none => (st, [])
          | none => (st, [])

/-- The confirmed kernel-change callback for an open notebook
(`await sessionContext.changeKernel({name: kernel})` then clear the pending
flag; on error the pending flag is cleared as well). `succeeded` is the
outcome of the attempt; the returned `Bool` is the value passed to
`resolve`. -/
def kernelChangeSettle (st : JupyterState) (notebook kernel : String) (succeeded : Bool) :
    JupyterState × List JEvent × Bool :=
  (setKernelChangePending st notebook kernel false,
    [JEvent.changeKernel kernel], succeeded)

/-- The confirmed kernel-change callback for a notebook that is not open
(`await docManager.services.sessions.shutdown(notebookSession.id)` then
clear the pending flag; on error the pending flag is cleared as well). -/
def kernelShutdownSettle (st : JupyterState) (notebook kernel sessionId : String)
    (succeeded : Bool) : JupyterState × List JEvent × Bool :=
  (setKernelChangePending st notebook kernel false,
    [JEvent.shutdownSession sessionId], succeeded)

end Jupyter

/-! ## Concrete example inputs -/

namespace Orchest

/-- A registry holding one RUNNING session stored under the camelCase
convention only (as the poller or a direct `setSession` merge can
produce). -/
def exRunningCamelOnly : SessionsContextState :=
  { sessions := [{ projectUuid := some "p1", pipelineUuid := some "q1",
                   status := some "RUNNING" }],
    sessionsIsLoading := false, sessionsKillAllInProgress := false }

/-- A fully-normalized RUNNING session (both conventions present), as a
completed launch leaves it. -/
def exNormRunning : Session :=
  { project_uuid := some "p1", pipeline_uuid := some "q1",
    projectUuid := some "p1", pipelineUuid := some "q1", status := some "RUNNING" }

/-- A registry holding one fully-normalized RUNNING session. -/
def exStNormRunning : SessionsContextState :=
  { sessions := [exNormRunning],
    sessionsIsLoading := false, sessionsKillAllInProgress := false }

/-- A registry holding one RUNNING session stored under the snake_case
convention only. -/
def exStSnakeRunning : SessionsContextState :=
  { sessions := [{ project_uuid := some "p1", pipeline_uuid := some "q1",
                   status := some "RUNNING" }],
    sessionsIsLoading := false, sessionsKillAllInProgress := false }

/-- A fully-normalized LAUNCHING session (both conventions present). -/
def exNormLaunching : Session :=
  { project_uuid := some "p1", pipeline_uuid := some "q1",
    projectUuid := some "p1", pipelineUuid := some "q1", status := some "LAUNCHING" }

/-- A registry holding one fully-normalized LAUNCHING session. -/
def exStNormLaunching : SessionsContextState :=
  { sessions := [exNormLaunching],
    sessionsIsLoading := false, sessionsKillAllInProgress := false }

end Orchest

namespace Jupyter

/-- A visible bridge state with no deferred reload pending. -/
def exVisibleState : JupyterState :=
  { baseAddress := "http://x", href := "http://x/lab", hidden := false,
    reloadOnShow := false }

/-- A lab with one open, clean notebook panel whose context resolves. -/
def exCleanPanelApp : JApp :=
  { mainWidgets := [{ nodePresent := true, isNotebookPanel := true, dirty := false,
                      ctxId := some "nb.ipynb" }] }

/-- Surface wrapping `exCleanPanelApp`. -/
def exCleanPanelSurface : Surface := { app := some exCleanPanelApp }

/-- A lab with three open panels: a clean one with a context, a dirty one,
and a clean one whose context cannot be resolved (already closed). -/
def exMixedPanelsApp : JApp :=
  { mainWidgets :=
      [{ nodePresent := true, isNotebookPanel := true, dirty := false,
         ctxId := some "a.ipynb" },
       { nodePresent := true, isNotebookPanel := true, dirty := true,
         ctxId := some "b.ipynb" },
       { nodePresent := true, isNotebookPanel := true, dirty := false,
         ctxId := none }] }

/-- Surface wrapping `exMixedPanelsApp`. -/
def exMixedPanelsSurface : Surface := { app := some exMixedPanelsApp }

/-- A visible bridge state with a deferred reload pending. -/
def exReloadPendingState : JupyterState :=
  { baseAddress := "http://x", href := "http://x/lab", hidden := false,
    reloadOnShow := true }

/-- A surface whose lab has `nb.ipynb` open, bound to kernel
`"kernel-b"`. -/
def exKernelSurface : Surface :=
  { app := some { openNotebooks := [{ path := "nb.ipynb", kernelName := some "kernel-b" }] } }

/-- A freshly constructed bridge state (all fields at their constructor
values). -/
def exFreshBridge : JupyterState := {}

/-- A fresh bridge recorded at address `http://a`. -/
def exBridgeA : JupyterState := { baseAddress := "http://a" }

end Jupyter

/-! ## Helper lemmas -/

namespace Orchest

theorem isSession_iff {a b : Session} :
    isSession a b = true ↔ getSessionValue a = getSessionValue b := by
  simp [isSession]

theorem isSession_comm (a b : Session) : isSession a b = isSession b a := by
  simp [isSession, eq_comm]

theorem isSession_congr {a b : Session}
    (h : getSessionValue a = getSessionValue b) (c : Session) :
    isSession a c = isSession b c := by
  simp [isSession, h]

theorem optOr_self (a : Option String) : optOr a a = a := by
  cases a <;> rfl

theorem optOr_some (v : String) (b : Option String) : optOr (some v) b = some v := rfl

theorem mergeSession_status (c : Session) (x : String) :
    mergeSession c { c with status := some x } = { c with status := some x } := by
  simp only [mergeSession, optOr_self, optOr_some]

theorem jsOr_some {p : String} (hp : p ≠ "") (b : Option String) :
    jsOr (some p) b = some p := by
  simp [jsOr, hp]

theorem getSessionValue_mkPayload {p q : String} (hp : p ≠ "") (hq : q ≠ "") :
    getSessionValue (mkPayload p q) = (some p, some q) := by
  simp [getSessionValue, mkPayload, jsOr_some hp, jsOr_some hq]

theorem find?_append_none {p : Session → Bool} {l₁ : List Session} (l₂ : List Session)
    (h : ∀ s ∈ l₁, p s = false) :
    List.find? p (l₁ ++ l₂) = List.find? p l₂ := by
  induction l₁ with
  | nil => rfl
  | cons a t ih =>
      rw [List.cons_append, List.find?_cons_of_neg, ih]
      · intro s hs
        exact h s (List.mem_cons_of_mem a hs)
      · simp [h a (List.mem_cons_self a t)]

theorem find?_decomp {pr : Session → Bool} {pre post : List Session} {e : Session}
    (hpre : ∀ s ∈ pre, pr s = false) (he : pr e = true) :
    List.find? pr (pre ++ e :: post) = some e := by
  rw [find?_append_none _ hpre, List.find?_cons_of_pos _ he]

theorem mutateFirst_decomp {pr : Session → Bool} {f : Session → Session}
    {pre post : List Session} {e : Session}
    (hpre : ∀ s ∈ pre, pr s = false) (he : pr e = true) :
    mutateFirst pr f (pre ++ e :: post) = pre ++ f e :: post := by
  induction pre with
  | nil => simp [mutateFirst, he]
  | cons a t ih =>
      have ha : pr a = false := hpre a (List.mem_cons_self a t)
      simp only [List.cons_append, mutateFirst, ha, Bool.false_eq_true, if_false,
        List.cons.injEq, true_and]
      exact ih (fun s hs => hpre s (List.mem_cons_of_mem a hs))

theorem map_merge_none {nd : Session} {l : List Session}
    (h : ∀ s ∈ l, isSession nd s = false) :
    l.map (fun s => if isSession nd s then mergeSession s nd else s) = l := by
  induction l with
  | nil => rfl
  | cons a t ih =>
      have ha : isSession nd a = false := h a (List.mem_cons_self a t)
      simp only [List.map_cons, ha, Bool.false_eq_true, if_false, List.cons.injEq, true_and]
      exact ih (fun s hs => h s (List.mem_cons_of_mem a hs))

theorem setSession_decomp {nd e : Session} {pre post : List Session}
    {st : SessionsContextState}
    (hsess : st.sessions = pre ++ e :: post)
    (hpre : ∀ s ∈ pre, isSession nd s = false)
    (hpost : ∀ s ∈ post, isSession nd s = false)
    (he : isSession nd e = true) :
    setSession nd st = { st with sessions := pre ++ mergeSession e nd :: post } := by
  unfold setSession
  rw [hsess]
  have hany : (pre ++ e :: post).any (fun s => isSession nd s) = true := by
    simp only [List.any_append, List.any_cons, he, Bool.true_or, Bool.or_true]
  rw [hany]
  simp only [if_true, List.map_append, List.map_cons, he, map_merge_none hpre,
    map_merge_none hpost]

theorem setSession_insert {nd : Session} {st : SessionsContextState}
    (h : ∀ s ∈ st.sessions, isSession nd s = false) :
    setSession nd st =
      { st with sessions := st.sessions ++ [{ nd with status := some "LAUNCHING" }] } := by
  unfold setSession
  have hany : st.sessions.any (fun s => isSession nd s) = false := by
    simp only [List.any_eq_false]
    intro s hs
    simp [h s hs]
  rw [hany, map_merge_none h]
  simp

theorem find?_ext {p q : Session → Bool} (h : ∀ s, p s = q s) (l : List Session) :
    l.find? p = l.find? q := by
  have : p = q := funext h
  rw [this]

/-- A session whose four identity fields agree on a fixed pair is unchanged
by `convertKeyToCamelCase`. -/
theorem convert_normalized {e : Session} {p q : String}
    (hpu : e.project_uuid = some p) (hqu : e.pipeline_uuid = some q)
    (hcu : e.projectUuid = some p) (hcq : e.pipelineUuid = some q) :
    convertKeyToCamelCase e = e := by
  cases e
  simp_all [convertKeyToCamelCase]

theorem getSessionValue_normalized {e : Session} {p q : String}
    (hp : p ≠ "") (hq : q ≠ "")
    (hpu : e.project_uuid = some p) (hqu : e.pipeline_uuid = some q)
    (hcu : e.projectUuid = some p) (hcq : e.pipelineUuid = some q) :
    getSessionValue e = (some p, some q) := by
  simp [getSessionValue, hpu, hqu, hcu, hcq, jsOr_some hp, jsOr_some hq]

/-- `toggleSession` on a found entry whose status is LAUNCHING or STOPPING
issues no request; the registry changes only by the in-place case
conversion of the found entry. -/
theorem toggleStart_found_working {st : SessionsContextState} {pre post : List Session}
    {e payload : Session}
    (hsess : st.sessions = pre ++ e :: post)
    (hpre : ∀ s ∈ pre, isSession s payload = false)
    (he : isSession e payload = true)
    (hw : isWorking (convertKeyToCamelCase e).status = true) :
    toggleStart st payload =
      ({ st with sessions := pre ++ convertKeyToCamelCase e :: post }, []) := by
  unfold toggleStart
  rw [hsess, find?_decomp hpre he]
  dsimp only
  rw [mutateFirst_decomp hpre he]
  simp [hw]

/-- `toggleSession` on a found RUNNING entry carrying its snake_case
identity: the entry is marked STOPPING (after the in-place conversion of
its camelCase fields) and exactly one DELETE request is issued to
`ENDPOINT ++ project_uuid ++ "/" ++ pipeline_uuid`. -/
theorem toggleStart_found_running {st : SessionsContextState} {pre post : List Session}
    {e payload : Session} {p q : String}
    (hp : p ≠ "") (hq : q ≠ "")
    (hsess : st.sessions = pre ++ e :: post)
    (hpre : ∀ s ∈ pre, isSession s payload = false)
    (hpost : ∀ s ∈ post, isSession s payload = false)
    (he : isSession e payload = true)
    (hpay : getSessionValue payload = (some p, some q))
    (hpu : e.project_uuid = some p) (hqu : e.pipeline_uuid = some q)
    (hst : e.status = some "RUNNING") :
    toggleStart st payload =
      ({ st with sessions := pre ++
          { e with projectUuid := some p, pipelineUuid := some q,
                   status := some "STOPPING" } :: post },
        [Request.delete (ENDPOINT ++ p ++ "/" ++ q)]) := by
  have hconv : convertKeyToCamelCase e =
      { e with projectUuid := some p, pipelineUuid := some q } := by
    simp [convertKeyToCamelCase, hpu, hqu]
  have hndval : getSessionValue
      { e with projectUuid := some p, pipelineUuid := some q, status := some "STOPPING" } =
      (some p, some q) := by
    simp [getSessionValue, jsOr_some hp, jsOr_some hq]
  have hconvval : getSessionValue
      { e with projectUuid := some p, pipelineUuid := some q } = (some p, some q) := by
    simp [getSessionValue, jsOr_some hp, jsOr_some hq]
  have hpre' : ∀ s ∈ pre,
      isSession { e with projectUuid := some p, pipelineUuid := some q,
                         status := some "STOPPING" } s = false := by
    intro s hs
    rw [isSession_congr (hndval.trans hpay.symm), isSession_comm]
    exact hpre s hs
  have hpost' : ∀ s ∈ post,
      isSession { e with projectUuid := some p, pipelineUuid := some q,
                         status := some "STOPPING" } s = false := by
    intro s hs
    rw [isSession_congr (hndval.trans hpay.symm), isSession_comm]
    exact hpost s hs
  have he' : isSession
      { e with projectUuid := some p, pipelineUuid := some q, status := some "STOPPING" }
      { e with projectUuid := some p, pipelineUuid := some q } = true := by
    rw [isSession, hndval, hconvval]
    simp
  rw [hst] at hconv hconvval he'
  unfold toggleStart
  rw [hsess, find?_decomp hpre he]
  dsimp only
  rw [mutateFirst_decomp hpre he, hconv]
  simp only [isWorking, Bool.or_eq_true, beq_iff_eq]
  norm_num
  rw [setSession_decomp rfl hpre' hpost' he', mergeSession_status]
  simp [stopSessionRequest, jsStr, hpu, hqu, hst]

end Orchest

/-! ## Claim theorems -/

namespace Jupyter

/-- C10: the readiness introspections `isJupyterLoaded()` and
`isJupyterShellRenderedCorrectly()` are total: for every state of the
foreign surface, whenever the underlying access raises (missing
`_orchest_app`, missing widget node, missing main content panel), the
wrapped function returns `false` (not ready) instead of propagating the
error. -/
theorem introspection_failure_not_ready (s : Surface) :
    (isJupyterLoadedExc s = Except.error () → isJupyterLoaded s = false) ∧
    (isJupyterShellRenderedCorrectlyExc s = Except.error () →
      isJupyterShellRenderedCorrectly s = false) := by
  constructor
  · intro h
    simp [isJupyterLoaded, h, catchFalse]
  · intro h
    simp [isJupyterShellRenderedCorrectly, h, catchFalse]

/-- C10 witness: evaluated at a surface with `_orchest_app` undefined and
at a surface whose first shell widget has no node. -/
theorem introspection_failure_not_ready_witness :
    isJupyterLoaded { app := none } = false ∧
    isJupyterShellRenderedCorrectly { app := none } = false ∧
    isJupyterLoaded { app := some { shellWidgets := [{ nodePresent := false }] } } = false :=
  ⟨(introspection_failure_not_ready _).1 rfl,
   (introspection_failure_not_ready _).2 rfl,
   (introspection_failure_not_ready _).1 rfl⟩

/-- C9: `updateJupyterInstance` with an address different from the recorded
one navigates the iframe to `about:blank` (unload, resetting the readiness
flag) before recording the new address; the new address is only navigated
to (as `<baseAddress>/lab`) at the subsequent `show()`; calling it with the
already-recorded address performs no unload. -/
theorem updateInstance_unload_order (st : JupyterState) (s : Surface) (b : String)
    (hne : st.baseAddress ≠ b)
    (hflag : st.reloadOnShow = false)
    (hblank : strContains "about:blank" b = false) :
    updateJupyterInstance st b =
      ({ st with href := "about:blank", iframeHasLoaded := false, baseAddress := b },
        [JEvent.navigate "about:blank"]) ∧
    (∃ rest,
      (showJupyter
        { st with href := "about:blank", iframeHasLoaded := false, baseAddress := b }
        s).2 = JEvent.navigate (b ++ "/lab") :: rest) ∧
    updateJupyterInstance st st.baseAddress = (st, []) := by
  refine ⟨?_, ?_, ?_⟩
  · simp [updateJupyterInstance, unload, setJupyterAddress, bne_iff_ne, hne]
  · simp only [showJupyter, hflag]
    simp only [Bool.false_eq_true, if_false, hblank, Bool.not_false, if_true,
      setJupyterAddress, List.nil_append]
    exact ⟨_, rfl⟩
  · simp [updateJupyterInstance]

/-- C9 witness: a fresh bridge recorded at `http://a` updated to
`http://b`. -/
theorem updateInstance_unload_order_witness :
    updateJupyterInstance exBridgeA "http://b" =
      ({ exBridgeA with href := "about:blank", iframeHasLoaded := false, baseAddress := "http://b" },
        [JEvent.navigate "about:blank"]) ∧
    (∃ rest,
      (showJupyter
        { exBridgeA with href := "about:blank", iframeHasLoaded := false, baseAddress := "http://b" }
        { app := none }).2 = JEvent.navigate ("http://b" ++ "/lab") :: rest) ∧
    updateJupyterInstance exBridgeA exBridgeA.baseAddress = (exBridgeA, []) :=
  updateInstance_unload_order _ _ _ (by decide) rfl (by decide)

end Jupyter

namespace Orchest

/-- C1 counterexample: a registry with one stoppable (RUNNING) session on
which the single stop request fails. `deleteAllSessions` issues the one
request, but because `Promise.all` rejects, the registry is NOT cleared
and the killing-all flag stays true — contradicting the claim that the
registry is empty and the flag false regardless of individual failures. -/
theorem deleteAll_failure_keeps_state :
    (deleteAllSessionsStart exRunningCamelOnly).2.length = 1 ∧
    (deleteAllSessionsSettle (deleteAllSessionsStart exRunningCamelOnly).1 false).sessions.length = 1 ∧
    (deleteAllSessionsSettle (deleteAllSessionsStart exRunningCamelOnly).1
      false).sessionsKillAllInProgress = true := by
  decide

/-- C1 (amended): `deleteAllSessions()` marks every stoppable session
STOPPING, sets the killing-all flag, and issues exactly one stop request
per stoppable session; when every request succeeds the registry is cleared
and the flag reset; when any request fails, the failure is only logged and
the marked registry and the raised flag are left in place. -/
theorem deleteAllSessions_behavior (st : SessionsContextState) :
    (deleteAllSessionsStart st).2.length =
      st.sessions.countP (fun s => isStoppable s.status) ∧
    (deleteAllSessionsStart st).1.sessions =
      st.sessions.map (fun s =>
        if isStoppable s.status then { s with status := some "STOPPING" } else s) ∧
    (deleteAllSessionsStart st).1.sessionsKillAllInProgress = true ∧
    (deleteAllSessionsSettle (deleteAllSessionsStart st).1 true).sessions = [] ∧
    (deleteAllSessionsSettle (deleteAllSessionsStart st).1
      true).sessionsKillAllInProgress = false ∧
    deleteAllSessionsSettle (deleteAllSessionsStart st).1 false =
      (deleteAllSessionsStart st).1 := by
  refine ⟨?_, ?_, ?_, ?_, ?_, ?_⟩
  · simp [deleteAllSessionsStart, List.countP_eq_length_filter]
  · simp [deleteAllSessionsStart]
  · simp [deleteAllSessionsStart]
  · simp [deleteAllSessionsSettle]
  · simp [deleteAllSessionsSettle]
  · simp [deleteAllSessionsSettle]

/-- C8: evaluation of the code at the failing input. Starting from the
empty initial registry, the reachable toggle sequence
`toggle(p1,q1); toggle(p1,q1); toggle(p2,q2); toggle(p2,q2)` (each second
call arriving before the launch response) leaves the registry with two
distinct entries that `isSession` judges identical: the in-place
`convertKeyToCamelCase` mutation overwrote both entries' camelCase
identity fields with their (absent) snake_case values, so both entries
carry the same empty identity — the at-most-one-entry-per-identity
invariant is violated. -/
theorem duplicate_identity_reachable :
    hasDuplicateIdentity
      (toggleStart (toggleStart (toggleStart (toggleStart initialState
        (mkPayload "p1" "q1")).1 (mkPayload "p1" "q1")).1
        (mkPayload "p2" "q2")).1 (mkPayload "p2" "q2")).1.sessions = true ∧
    (toggleStart (toggleStart (toggleStart (toggleStart initialState
      (mkPayload "p1" "q1")).1 (mkPayload "p1" "q1")).1
      (mkPayload "p2" "q2")).1 (mkPayload "p2" "q2")).1.sessions.length = 2 := by
  decide

end Orchest

namespace Jupyter

/-- C4 counterexample: with the surface visible (not hidden) and an open,
clean notebook panel whose context resolves, `reloadFilesFromDisk()`
reverts nothing: it only sets the reload-on-show flag. The claimed
"immediately reverts when called while visible" is false. -/
theorem reload_visible_performs_no_revert :
    exVisibleState.hidden = false ∧
    revertEvents exCleanPanelApp ≠ [] ∧
    reloadFilesFromDisk exVisibleState exCleanPanelSurface =
      ({ exVisibleState with reloadOnShow := true }, []) := by
  decide

/-- C4 (amended): `reloadFilesFromDisk()` always defers, whether the
surface is hidden or visible: it sets the reload-on-show flag and performs
no revert; the deferred reload then runs at the next `show()`, whose first
events revert exactly the open notebook panels that have a node, are not
dirty, and whose editing context resolves. -/
theorem reload_deferred_until_show (st st2 : JupyterState) (s : Surface) (app : JApp)
    (hflag : st2.reloadOnShow = true) (happ : s.app = some app) :
    reloadFilesFromDisk st s = ({ st with reloadOnShow := true }, []) ∧
    (∃ rest, (showJupyter st2 s).2 = revertEvents app ++ rest) ∧
    (∀ e, e ∈ revertEvents app ↔
      ∃ w, w ∈ app.mainWidgets ∧ w.nodePresent = true ∧ w.isNotebookPanel = true ∧
        w.dirty = false ∧ w.ctxId.map JEvent.revert = some e) := by
  refine ⟨rfl, ?_, ?_⟩
  · simp only [showJupyter, hflag, if_true, reloadFilesFromDiskNow, happ]
    exact ⟨_, List.append_assoc _ _ _⟩
  · intro e
    simp only [revertEvents, List.mem_filterMap, List.mem_filter, Bool.and_eq_true,
      Bool.not_eq_true']
    constructor
    · rintro ⟨w, ⟨hw, ⟨⟨h1, h2⟩, h3⟩⟩, h4⟩
      exact ⟨w, hw, h1, h2, h3, h4⟩
    · rintro ⟨w, hw, h1, h2, h3, h4⟩
      exact ⟨w, ⟨hw, ⟨⟨h1, h2⟩, h3⟩⟩, h4⟩

/-- C4 witness: three open panels (clean with context, dirty, clean
without context); the deferred reload at `show()` reverts exactly the
first. -/
theorem reload_deferred_until_show_witness :
    reloadFilesFromDisk exVisibleState exMixedPanelsSurface =
      ({ exVisibleState with reloadOnShow := true }, []) ∧
    (showJupyter exReloadPendingState exMixedPanelsSurface).2 =
      [JEvent.revert "a.ipynb"] ∧
    revertEvents exMixedPanelsApp = [JEvent.revert "a.ipynb"] :=
  ⟨(reload_deferred_until_show exVisibleState exReloadPendingState exMixedPanelsSurface
      exMixedPanelsApp rfl rfl).1, by decide, by decide⟩

/-- C3: the pending-kernel-change map guards the kernel-change flow: a
`setNotebookKernel` call that observes the pair already pending is a
complete no-op (no prompt, no request, no state change); the pair is
marked pending in the very state in which a prompt is issued; and the
confirm callbacks clear the pending flag whether the attempt succeeded or
failed, for both the live-rebind and the shutdown variants. -/
theorem kernel_change_pending_guard (st : JupyterState) (s : Surface) (n k : String) :
    (isKernelChangePending st n k = true → setNotebookKernel st s n k = (st, [])) ∧
    (∀ ok, isKernelChangePending (kernelChangeSettle st n k ok).1 n k = false) ∧
    (∀ sid ok, isKernelChangePending (kernelShutdownSettle st n k sid ok).1 n k = false) ∧
    (∀ st2 evs t m, setNotebookKernel st s n k = (st2, evs) →
      JEvent.prompt t m ∈ evs → isKernelChangePending st2 n k = true) := by
  refine ⟨?_, ?_, ?_, ?_⟩
  · intro h
    unfold setNotebookKernel
    repeat' split
    all_goals first | rfl | simp_all
  · intro ok
    simp [kernelChangeSettle, isKernelChangePending, setKernelChangePending, List.lookup]
  · intro sid ok
    simp [kernelShutdownSettle, isKernelChangePending, setKernelChangePending, List.lookup]
  · intro st2 evs t m heq hmem
    unfold setNotebookKernel at heq
    repeat' split at heq
    all_goals
      injection heq with h1 h2
    all_goals
      subst h1
    all_goals
      subst h2
    all_goals
      simp_all [isKernelChangePending, setKernelChangePending, List.lookup]

/-- C3 witness: `setKernelBinding("nb.ipynb", "kernel-a")` on a fresh
bridge issues one prompt and marks the pair pending; a second identical
call while pending is a no-op; the confirm callback clears the flag on
success and on failure. -/
theorem kernel_change_pending_guard_witness :
    isKernelChangePending
      (setNotebookKernel exFreshBridge exKernelSurface "nb.ipynb" "kernel-a").1
      "nb.ipynb" "kernel-a" = true ∧
    (setNotebookKernel exFreshBridge exKernelSurface "nb.ipynb" "kernel-a").2 =
      [JEvent.prompt "Warning" warningMessage] ∧
    setNotebookKernel
      (setNotebookKernel exFreshBridge exKernelSurface "nb.ipynb" "kernel-a").1
      exKernelSurface "nb.ipynb" "kernel-a" =
      ((setNotebookKernel exFreshBridge exKernelSurface "nb.ipynb" "kernel-a").1, []) ∧
    isKernelChangePending
      (kernelChangeSettle
        (setNotebookKernel exFreshBridge exKernelSurface "nb.ipynb" "kernel-a").1
        "nb.ipynb" "kernel-a" true).1 "nb.ipynb" "kernel-a" = false ∧
    isKernelChangePending
      (kernelChangeSettle
        (setNotebookKernel exFreshBridge exKernelSurface "nb.ipynb" "kernel-a").1
        "nb.ipynb" "kernel-a" false).1 "nb.ipynb" "kernel-a" = false ∧
    isKernelChangePending
      (kernelShutdownSettle
        (setNotebookKernel exFreshBridge exKernelSurface "nb.ipynb" "kernel-a").1
        "nb.ipynb" "kernel-a" "sid-1" false).1 "nb.ipynb" "kernel-a" = false := by
  refine ⟨?_, by decide, ?_, ?_, ?_, ?_⟩
  · exact (kernel_change_pending_guard exFreshBridge exKernelSurface "nb.ipynb"
      "kernel-a").2.2.2 _ _ "Warning" warningMessage rfl (by decide)
  · exact (kernel_change_pending_guard _ exKernelSurface "nb.ipynb" "kernel-a").1 (by decide)
  · exact (kernel_change_pending_guard _ exKernelSurface "nb.ipynb" "kernel-a").2.1 true
  · exact (kernel_change_pending_guard _ exKernelSurface "nb.ipynb" "kernel-a").2.1 false
  · exact (kernel_change_pending_guard _ exKernelSurface "nb.ipynb"
      "kernel-a").2.2.1 "sid-1" false

end Jupyter

namespace Orchest

/-- C5 counterexample: a RUNNING entry stored under the camelCase
convention only, toggled on its identity (p1, q1). The entry is marked
STOPPING and exactly one DELETE is issued, but `toggleSession`'s in-place
`convertKeyToCamelCase` first overwrites the camelCase identity fields
with the absent snake_case values, so `stopSession` renders the URL from
`undefined` fields: the DELETE goes to `ENDPOINT/undefined/undefined`,
not to the entry's `ENDPOINT/p1/q1` — the claimed request target
`/sessions/{project_uuid}/{pipeline_uuid}` is missed, refuting the claim
as stated over every RUNNING entry. -/
theorem toggle_running_camel_only_wrong_url :
    (toggleStart exRunningCamelOnly (mkPayload "p1" "q1")).2 =
      [Request.delete (ENDPOINT ++ "undefined" ++ "/" ++ "undefined")] ∧
    Request.delete (ENDPOINT ++ "undefined" ++ "/" ++ "undefined") ≠
      Request.delete (ENDPOINT ++ "p1" ++ "/" ++ "q1") ∧
    (toggleStart exRunningCamelOnly (mkPayload "p1" "q1")).1.sessions =
      [{ status := some "STOPPING" }] := by
  decide

/-- C5 (amended): for every registry entry with status RUNNING carrying
its snake_case identity `(p, q)` and matching the toggled identity,
`toggle` sets the entry's status to STOPPING and issues exactly one DELETE
request to `ENDPOINT ++ p ++ "/" ++ q`; when the request fails, an alert
is raised and the registry is left untouched, the entry still STOPPING.
For an entry stored under only the camelCase convention the entry is still
marked STOPPING but the single DELETE is issued to
`ENDPOINT/undefined/undefined` (see the counterexample). -/
theorem toggle_running_stop_request (st : SessionsContextState)
    (pre post : List Session) (e : Session) (p q : String)
    (hp : p ≠ "") (hq : q ≠ "")
    (hsess : st.sessions = pre ++ e :: post)
    (hpre : ∀ s ∈ pre, isSession s (mkPayload p q) = false)
    (hpost : ∀ s ∈ post, isSession s (mkPayload p q) = false)
    (he : isSession e (mkPayload p q) = true)
    (hpu : e.project_uuid = some p) (hqu : e.pipeline_uuid = some q)
    (hst : e.status = some "RUNNING") :
    toggleStart st (mkPayload p q) =
      ({ st with sessions := pre ++
          { e with projectUuid := some p, pipelineUuid := some q,
                   status := some "STOPPING" } :: post },
        [Request.delete (ENDPOINT ++ p ++ "/" ++ q)]) ∧
    stopSettle (toggleStart st (mkPayload p q)).1 false =
      ((toggleStart st (mkPayload p q)).1, [("Error", "Failed to stop session.")]) := by
  have h1 := toggleStart_found_running hp hq hsess hpre hpost he
    (getSessionValue_mkPayload hp hq) hpu hqu hst
  exact ⟨h1, by simp [stopSettle]⟩

/-- C5 witness: a one-entry registry holding a normalized RUNNING session
for identity (p1, q1). -/
theorem toggle_running_stop_request_witness :
    toggleStart exStNormRunning (mkPayload "p1" "q1") =
      ({ exStNormRunning with sessions := [] ++
          { exNormRunning with projectUuid := some "p1", pipelineUuid := some "q1",
                               status := some "STOPPING" } :: [] },
        [Request.delete (ENDPOINT ++ "p1" ++ "/" ++ "q1")]) ∧
    stopSettle (toggleStart exStNormRunning (mkPayload "p1" "q1")).1 false =
      ((toggleStart exStNormRunning (mkPayload "p1" "q1")).1,
        [("Error", "Failed to stop session.")]) :=
  toggle_running_stop_request exStNormRunning [] [] exNormRunning "p1" "q1"
    (by decide) (by decide) rfl (by simp) (by simp) (by decide) rfl rfl rfl

/-- C6: starting from the empty initial registry, `toggle` on identity
(p, q) inserts exactly one LAUNCHING entry for that identity and issues
one launch POST; merging the server's snake_case response
`{project_uuid, pipeline_uuid, status: RUNNING}` updates that same entry
to RUNNING with no second entry created. -/
theorem toggle_launch_merge (p q : String) (hp : p ≠ "") (hq : q ≠ "") :
    (toggleStart initialState (mkPayload p q)).1.sessions =
      [{ projectUuid := some p, pipelineUuid := some q, status := some "LAUNCHING" }] ∧
    (toggleStart initialState (mkPayload p q)).2 =
      [Request.post ENDPOINT (some q) (some p)] ∧
    (launchSettle (toggleStart initialState (mkPayload p q)).1
        (Except.ok { project_uuid := some p, pipeline_uuid := some q,
                     status := some "RUNNING" })).1.sessions =
      [{ project_uuid := some p, pipeline_uuid := some q, projectUuid := some p,
         pipelineUuid := some q, status := some "RUNNING" }] := by
  refine ⟨?_, ?_, ?_⟩
  · simp [toggleStart, initialState, setSession, mkPayload]
  · simp [toggleStart, initialState, mkPayload]
  · simp [toggleStart, initialState, launchSettle, setSession, mergeSession, optOr,
      isSession, getSessionValue, jsOr, mkPayload, hp, hq]

/-- C6 witness: the launch scenario evaluated at identity (p1, q1). -/
theorem toggle_launch_merge_witness :
    (toggleStart initialState (mkPayload "p1" "q1")).1.sessions =
      [{ projectUuid := some "p1", pipelineUuid := some "q1", status := some "LAUNCHING" }] ∧
    (toggleStart initialState (mkPayload "p1" "q1")).2 =
      [Request.post ENDPOINT (some "q1") (some "p1")] ∧
    (launchSettle (toggleStart initialState (mkPayload "p1" "q1")).1
        (Except.ok { project_uuid := some "p1", pipeline_uuid := some "q1",
                     status := some "RUNNING" })).1.sessions =
      [{ project_uuid := some "p1", pipeline_uuid := some "q1", projectUuid := some "p1",
         pipelineUuid := some "q1", status := some "RUNNING" }] :=
  toggle_launch_merge "p1" "q1" (by decide) (by decide)

/-- C7: for every registry state, `getSession` queried with the camelCase
identity fields returns the same entry as when queried with the snake_case
identity fields, whatever convention each stored entry uses. -/
theorem getSession_casing_agnostic (st : SessionsContextState) (p q : String)
    (hp : p ≠ "") (hq : q ≠ "") :
    getSession (mkPayload p q) st =
      getSession { project_uuid := some p, pipeline_uuid := some q } st := by
  unfold getSession
  apply find?_ext
  intro s
  exact isSession_congr (by rw [getSessionValue_mkPayload hp hq]; rfl) s

/-- C7 witness: both query conventions return the same entry on a registry
with a snake_case-stored entry and on one with a camelCase-stored
entry. -/
theorem getSession_casing_agnostic_witness :
    getSession (mkPayload "p1" "q1") exStSnakeRunning =
      getSession { project_uuid := some "p1", pipeline_uuid := some "q1" } exStSnakeRunning ∧
    getSession (mkPayload "p1" "q1") exRunningCamelOnly =
      getSession { project_uuid := some "p1", pipeline_uuid := some "q1" } exRunningCamelOnly ∧
    getSession (mkPayload "p1" "q1") exStSnakeRunning =
      some { project_uuid := some "p1", pipeline_uuid := some "q1", status := some "RUNNING" } :=
  ⟨getSession_casing_agnostic exStSnakeRunning "p1" "q1" (by decide) (by decide),
   getSession_casing_agnostic exRunningCamelOnly "p1" "q1" (by decide) (by decide),
   by decide⟩

end Orchest

namespace Orchest

/-- C2 counterexample: a RUNNING session stored under the camelCase
convention only. The first toggle issues one stop request, but its
in-place `convertKeyToCamelCase` erases the entry's identity fields; the
second toggle on the same identity, arriving before the stop resolves, no
longer finds the entry and issues a second (launch) request — a duplicate
outgoing request for the same session identity, and the "no action at all"
part of the claim also fails since the first no-op path rewrites the
stored entry. -/
theorem toggle_duplicate_request_on_camel_only :
    (toggleStart exRunningCamelOnly (mkPayload "p1" "q1")).2.length = 1 ∧
    (toggleStart (toggleStart exRunningCamelOnly (mkPayload "p1" "q1")).1
      (mkPayload "p1" "q1")).2 =
      [Request.post ENDPOINT (some "q1") (some "p1")] := by
  decide

/-- C2 (amended): for every session stored with both naming conventions
agreeing on its nonempty identity (p, q) — as a completed launch leaves
it — and status RUNNING or LAUNCHING, a second `toggle` issued before the
first call's network request resolves produces no duplicate outgoing
request: the first call issues at most one request, the second call issues
none and leaves the registry exactly as the first call left it; moreover a
call that observes status LAUNCHING (or STOPPING) on such an entry
performs no action at all. For a session stored under only the camelCase
convention the guard fails (see the counterexample). -/
theorem toggle_second_call_guarded (st : SessionsContextState)
    (pre post : List Session) (e : Session) (p q : String)
    (hp : p ≠ "") (hq : q ≠ "")
    (hsess : st.sessions = pre ++ e :: post)
    (hpre : ∀ s ∈ pre, isSession s (mkPayload p q) = false)
    (hpost : ∀ s ∈ post, isSession s (mkPayload p q) = false)
    (hpu : e.project_uuid = some p) (hqu : e.pipeline_uuid = some q)
    (hcu : e.projectUuid = some p) (hcq : e.pipelineUuid = some q)
    (hst : e.status = some "RUNNING" ∨ e.status = some "LAUNCHING") :
    (toggleStart st (mkPayload p q)).2.length ≤ 1 ∧
    (toggleStart (toggleStart st (mkPayload p q)).1 (mkPayload p q)).2 = [] ∧
    (toggleStart (toggleStart st (mkPayload p q)).1 (mkPayload p q)).1 =
      (toggleStart st (mkPayload p q)).1 ∧
    (isWorking e.status = true → toggleStart st (mkPayload p q) = (st, [])) := by
  have he : isSession e (mkPayload p q) = true := by
    rw [isSession, getSessionValue_normalized hp hq hpu hqu hcu hcq,
      getSessionValue_mkPayload hp hq]
    simp
  cases hst with
  | inl hrun =>
      have h1 := toggleStart_found_running hp hq hsess hpre hpost he
        (getSessionValue_mkPayload hp hq) hpu hqu hrun
      have hnd : ({ e with projectUuid := some p, pipelineUuid := some q, status := some "STOPPING" } : Session) =
          { project_uuid := some p, pipeline_uuid := some q, projectUuid := some p,
            pipelineUuid := some q, status := some "STOPPING" } := by
        cases e
        simp_all
      rw [hnd] at h1
      have he2 : isSession
          ({ project_uuid := some p, pipeline_uuid := some q, projectUuid := some p,
             pipelineUuid := some q, status := some "STOPPING" } : Session)
          (mkPayload p q) = true := by
        rw [isSession, getSessionValue_normalized hp hq rfl rfl rfl rfl,
          getSessionValue_mkPayload hp hq]
        simp
      have hw2 : isWorking (convertKeyToCamelCase
          { project_uuid := some p, pipeline_uuid := some q, projectUuid := some p,
            pipelineUuid := some q, status := some "STOPPING" }).status = true := by
        rw [convert_normalized rfl rfl rfl rfl]
        rfl
      have h2 := toggleStart_found_working
        (show ({ st with sessions := pre ++
            { project_uuid := some p, pipeline_uuid := some q, projectUuid := some p,
              pipelineUuid := some q, status := some "STOPPING" } :: post
          } : SessionsContextState).sessions = pre ++
            { project_uuid := some p, pipeline_uuid := some q, projectUuid := some p,
              pipelineUuid := some q, status := some "STOPPING" } :: post from rfl)
        hpre he2 hw2
      rw [convert_normalized rfl rfl rfl rfl] at h2
      refine ⟨?_, ?_, ?_, ?_⟩
      · rw [h1]
        simp
      · rw [h1]
        rw [h2]
      · rw [h1]
        rw [h2]
      · intro hw
        rw [hrun] at hw
        simp [isWorking] at hw
  | inr hlaunch =>
      have hw : isWorking (convertKeyToCamelCase e).status = true := by
        rw [convert_normalized hpu hqu hcu hcq, hlaunch]
        rfl
      have h1 := toggleStart_found_working hsess hpre he hw
      rw [convert_normalized hpu hqu hcu hcq, ← hsess] at h1
      have hst_eta : ({ st with sessions := st.sessions } : SessionsContextState) = st := rfl
      rw [hst_eta] at h1
      refine ⟨?_, ?_, ?_, ?_⟩
      · rw [h1]
        simp
      · rw [h1, h1]
      · rw [h1, h1]
      · intro _
        exact h1

/-- C2 witness: the guarded second call evaluated on a normalized RUNNING
entry (first three conjuncts) and the complete no-op evaluated on a
normalized LAUNCHING entry (last conjunct). -/
theorem toggle_second_call_guarded_witness :
    (toggleStart exStNormRunning (mkPayload "p1" "q1")).2.length ≤ 1 ∧
    (toggleStart (toggleStart exStNormRunning (mkPayload "p1" "q1")).1
      (mkPayload "p1" "q1")).2 = [] ∧
    (toggleStart (toggleStart exStNormRunning (mkPayload "p1" "q1")).1
      (mkPayload "p1" "q1")).1 = (toggleStart exStNormRunning (mkPayload "p1" "q1")).1 ∧
    toggleStart exStNormLaunching (mkPayload "p1" "q1") = (exStNormLaunching, []) := by
  have hr := toggle_second_call_guarded exStNormRunning [] [] exNormRunning "p1" "q1"
    (by decide) (by decide) rfl (by simp) (by simp) rfl rfl rfl rfl (Or.inl rfl)
  have hl := toggle_second_call_guarded exStNormLaunching [] [] exNormLaunching "p1" "q1"
    (by decide) (by decide) rfl (by simp) (by simp) rfl rfl rfl rfl (Or.inr rfl)
  exact ⟨hr.1, hr.2.1, hr.2.2.1, hl.2.2.2 rfl⟩

end Orchest
